import Mathlib

/-!
Verification of `chromium/tools/merge_from_chromium.py`.

This file gives a shallow embedding, in Lean 4, of the merge tool's core logic:

* `_GetThirdPartyProjectMergeInfo` (manifest merge-info extraction with the
  `deps` / `deps_os['unix']` / `deps_os['android']` fallback order and the
  `re.match('(.*?)@(.*)')` url/sha1 split),
* `_VarImpl.Lookup` (manifest variable lookup),
* `_GetSVNRevisionAndSHA1` (revision location, including the oldest-match
  selection for `git log --grep` output),
* `_GenerateMakefiles` (build-file generation with unattended rollback),
* `Snapshot` and the tail of `main` (no-new-commits early return and exit code).

Python dictionaries are modelled as association lists (`alGet?` returns the
value at the first matching key, mirroring unique-key dict lookup).  Python
exceptions are modelled by the `PyErr` inductive and `Except`.  External shell
commands (`merge_common.GetCommandStdout`) are modelled by oracles packaged in
the `World` structure, and the side effects the tool performs are recorded as a
`GitAction` trace.
-/

/-- Python exception values raised by the tool.  `mergeError` stands for
`merge_common.MergeError` (the fatal kind) and `temporaryMergeError` for
`merge_common.TemporaryMergeError` (the recoverable kind, a `MergeError`
subclass).  `keyError`, `attributeError`, `indexError` and `exception` stand
for the corresponding built-in Python exception classes. -/
inductive PyErr where
  | keyError (key : String)
  | attributeError
  | indexError
  | exception (msg : String)
  | mergeError (msg : String)
  | temporaryMergeError (msg : String)
deriving DecidableEq, Repr

/-- Whether `except merge_common.MergeError` catches this exception:
`TemporaryMergeError` is a subclass of `MergeError`. -/
def PyErr.isMergeError : PyErr → Bool
  | .mergeError _ => true
  | .temporaryMergeError _ => true
  | _ => false

/-- Python `str(e)` for the exceptions the tool formats into messages (only
`MergeError` family values are ever formatted, where `str` yields the
message). -/
def PyErr.str : PyErr → String
  | .keyError k => k
  | .attributeError => "AttributeError"
  | .indexError => "IndexError"
  | .exception m => m
  | .mergeError m => m
  | .temporaryMergeError m => m

/-- Python `d.get(k)` on a dict modelled as an association list: the value at
the first matching key, or `none`. -/
def alGet? {α : Type} (d : List (String × α)) (k : String) : Option α :=
  match d.find? (fun kv => kv.1 == k) with
  | some kv => some kv.2
  | none => none

/-- Python `d[k]`: like `alGet?` but raising `KeyError` when the key is
absent. -/
def dictGetItem {α : Type} (d : List (String × α)) (k : String) : Except PyErr α :=
  match alGet? d k with
  | some v => Except.ok v
  | none => Except.error (PyErr.keyError k)

/-- Does `pre` occur at the head of `l`? (`str.startswith` on char lists). -/
def listStartsWith : List Char → List Char → Bool
  | _, [] => true
  | [], _ :: _ => false
  | c :: cs, p :: ps => c == p && listStartsWith cs ps

/-- Does `pat` occur anywhere inside `l`? (substring search on char lists). -/
def listContainsSeq : List Char → List Char → Bool
  | [], pat => listStartsWith [] pat
  | c :: cs, pat => listStartsWith (c :: cs) pat || listContainsSeq cs pat

/-- The suffix of `l` that follows the first occurrence of `pat`, if any. -/
def findAfter : List Char → List Char → Option (List Char)
  | [], pat => if listStartsWith [] pat then some [] else none
  | c :: cs, pat =>
    if listStartsWith (c :: cs) pat then some (List.drop pat.length (c :: cs))
    else findAfter cs pat

/-- `str.startswith` on `String`, computed on the underlying char lists. -/
def strStartsWith (s pre : String) : Bool := listStartsWith s.data pre.data

/-- `str.endswith` on `String`, computed on the underlying char lists. -/
def strEndsWith (s suf : String) : Bool :=
  listStartsWith s.data.reverse suf.data.reverse

/-- `posixpath.join(a, b)`: `b` if it is absolute, else `a` and `b` joined
with a single slash. -/
def osPathJoin (a b : String) : String :=
  if strStartsWith b "/" then b
  else if a == "" || strEndsWith a "/" then a ++ b
  else a ++ "/" ++ b

/-- Split a char list at the first `'@'`: `some (before, after)` when an
`'@'` is present. -/
def splitAtFirstAt : List Char → Option (List Char × List Char)
  | [] => none
  | c :: cs =>
    if c == '@' then some ([], cs)
    else
      match splitAtFirstAt cs with
      | none => none
      | some (a, b) => some (c :: a, b)

/-- The first line of a char list (`'.'` in a Python regex does not match a
newline, so an unanchored `.*` stays within the current line). -/
def takeLine (l : List Char) : List Char := l.takeWhile (fun c => c != '\n')

/-- Embeds `re.match('(.*?)@(.*)', s)` from `_GetThirdPartyProjectMergeInfo`:
the lazy `(.*?)` puts the first `'@'` of the first line as the separator, so
group 1 is the text before it and group 2 the rest of that line.  There is no
match (the Python value is `None`) when the first line contains no `'@'`. -/
def reMatchUrlSha1 (s : String) : Option (String × String) :=
  match splitAtFirstAt (takeLine s.data) with
  | none => none
  | some (a, b) => some (String.mk a, String.mk b)

/-- The `TemporaryMergeError` message raised by `_GetThirdPartyProjectMergeInfo`
when no fallback table contains an entry for `path`. -/
def missingEntryMessage (path : String) : String :=
  "Could not find .DEPS.git entry for project " ++ path ++
    ". This probably means that the project list in merge_from_chromium.py " ++
    "needs to be updated."

/-- The result of `_ParseDEPS`: the local scope produced by evaluating the
`.DEPS.git` manifest, restricted to the two tables the tool reads.  `deps`
maps destination path to the combined `url@sha1` string; `deps_os` maps a
platform name to its own such table. -/
structure DepsVars where
  deps : List (String × String)
  deps_os : List (String × List (String × String))

/-- The inner loop of `_GetThirdPartyProjectMergeInfo`:
`for deps in deps_fallback_order: url_plus_sha1 = deps.get(key); if url_plus_sha1: break`.
A looked-up value counts as a hit only when it is truthy (present and not the
empty string); otherwise the next table is consulted.  `none` corresponds to
the loop finishing without `break`. -/
def lookupFallback : List (List (String × String)) → String → Option String
  | [], _ => none
  | d :: rest, key =>
    match alGet? d key with
    | some v => if v == "" then lookupFallback rest key else some v
    | none => lookupFallback rest key

/-- The `for path in third_party_projects` loop of
`_GetThirdPartyProjectMergeInfo`.  Each resolved path contributes
`(path, url, sha1)`; a missing entry raises `TemporaryMergeError`, and a value
the regex does not match raises `AttributeError` (`None.group(1)`).  The
Python `result` dict keyed by path is modelled as the association list in
traversal order; an exception discards it entirely. -/
def extractLoop (tiers : List (List (String × String))) :
    List String → Except PyErr (List (String × String × String))
  | [] => Except.ok []
  | path :: rest =>
    match lookupFallback tiers (osPathJoin "src" path) with
    | none => Except.error (PyErr.temporaryMergeError (missingEntryMessage path))
    | some urlPlusSha1 =>
      match reMatchUrlSha1 urlPlusSha1 with
      | none => Except.error PyErr.attributeError
      | some (url, sha1) =>
        match extractLoop tiers rest with
        | Except.error e => Except.error e
        | Except.ok tail => Except.ok ((path, url, sha1) :: tail)

/-- Embeds `_GetThirdPartyProjectMergeInfo(third_party_projects, deps_vars)`.
The fallback list `[deps_vars['deps'], deps_vars['deps_os']['unix'],
deps_vars['deps_os']['android']]` is built first; the two `deps_os` item
accesses raise `KeyError` if the platform key is absent, before any project
path is examined. -/
def GetThirdPartyProjectMergeInfo (thirdPartyProjects : List String)
    (depsVars : DepsVars) : Except PyErr (List (String × String × String)) :=
  match dictGetItem depsVars.deps_os "unix" with
  | Except.error e => Except.error e
  | Except.ok unix =>
    match dictGetItem depsVars.deps_os "android" with
    | Except.error e => Except.error e
    | Except.ok android =>
      extractLoop [depsVars.deps, unix, android] thirdPartyProjects

/-- Embeds `_VarImpl.Lookup(var_name)` from `_ParseDEPS`: the caller-supplied
override table is consulted first, then the manifest's own `vars` table
(`local_scope.get('vars', {})`, modelled as an `Option` that is `none` when
the manifest defines no `vars`), else a generic `Exception` is raised. -/
def VarImpl.Lookup (customVars : List (String × String))
    (localScopeVars : Option (List (String × String))) (varName : String) :
    Except PyErr String :=
  match alGet? customVars varName with
  | some v => Except.ok v
  | none =>
    match alGet? (localScopeVars.getD []) varName with
    | some v => Except.ok v
    | none => Except.error (PyErr.exception ("Var is not defined: " ++ varName))

/-- A commit on the tracked upstream branch (`SRC_GIT_BRANCH`).  `fullMessage`
is the log message `git log --grep` matches against; `%b` in a format string
prints only the body. -/
structure Commit where
  sha1 : String
  subject : String
  body : String
deriving DecidableEq, Repr

/-- The full commit message: subject, blank line, body. -/
def Commit.fullMessage (c : Commit) : String := c.subject ++ "\n\n" ++ c.body

/-- Split a char list into its lines (separator `'\n'`); `acc` holds the
current line reversed. -/
def splitLinesAux : List Char → List Char → List (List Char)
  | [], acc => [acc.reverse]
  | c :: cs, acc =>
    if c == '\n' then acc.reverse :: splitLinesAux cs []
    else splitLinesAux cs (c :: acc)

/-- The lines of a string. -/
def splitLines (s : String) : List (List Char) := splitLinesAux s.data []

/-- Does one line match the unanchored pattern `git-svn-id: .*@<rev>` from
`git log --grep=git-svn-id: .*@%s`?  True when the line contains
`git-svn-id: ` followed, later on the same line, by `'@'` and then the digits
of `rev`.  Like the original pattern, nothing anchors the end of `rev`, so
revision `123` also matches a line citing revision `1234`. -/
def lineMatchesRevGrep (line : List Char) (rev : String) : Bool :=
  match findAfter line ("git-svn-id: ".data) with
  | none => false
  | some rest => listContainsSeq rest ('@' :: rev.data)

/-- Does a commit message match `--grep=git-svn-id: .*@<rev>`?  `git log
--grep` matches the pattern against each line of the message. -/
def commitMatchesRevGrep (msg : String) (rev : String) : Bool :=
  (splitLines msg).any (fun line => lineMatchesRevGrep line rev)

/-- The maximal run of decimal digits at the head of a char list. -/
def takeDigitsList : List Char → List Char
  | [] => []
  | c :: cs => if c.isDigit then c :: takeDigitsList cs else []

/-- The digits captured by `@([0-9]+)` when the greedy `.*` before it makes
the regex engine pick the rightmost `'@'` that is followed by a digit. -/
def lastAtDigits : List Char → Option (List Char)
  | [] => none
  | c :: cs =>
    match lastAtDigits cs with
    | some r => some r
    | none =>
      if c == '@' then
        match takeDigitsList cs with
        | [] => none
        | d :: ds => some (d :: ds)
      else none

/-- One line tried against `^git-svn-id: .*@([0-9]+)`: the line must start
with the header, and the capture is the digit run after the rightmost
eligible `'@'` in the remainder. -/
def parseSvnRevisionLine (line : List Char) : Option (List Char) :=
  if listStartsWith line ("git-svn-id: ".data) then
    lastAtDigits (List.drop ("git-svn-id: ".data).length line)
  else none

/-- Embeds `_ParseSvnRevisionFromGitCommitMessage`:
`re.search(r'^git-svn-id: .*@([0-9]+)', msg, re.MULTILINE).group(1)`.  The
first line (in order) matching the anchored pattern supplies the capture;
with no match the Python code dereferences `None` and raises
`AttributeError`. -/
def ParseSvnRevisionFromGitCommitMessage (msg : String) : Except PyErr String :=
  match (splitLines msg).findSome? (fun line => parseSvnRevisionLine line) with
  | some d => Except.ok (String.mk d)
  | none => Except.error PyErr.attributeError

/-- Output of `git log --grep='git-svn-id: .*@<rev>' --format=%H <branch>`:
the hashes of matching commits, newest first.  `history` lists the tracked
branch oldest first, so `git log` traverses its reverse. -/
def gitLogRevGrep (history : List Commit) (rev : String) : List String :=
  ((history.reverse).filter
    (fun c => commitMatchesRevGrep c.fullMessage rev)).map (fun c => c.sha1)

/-- The final branch of `_GetSVNRevisionAndSHA1`: grep the branch history for
the revision trailer.  An empty output raises `TemporaryMergeError`;
otherwise `output.split()[-1]` takes the last printed hash, which is the
oldest matching commit. -/
def numericRevisionLookup (history : List Commit) (rev : String) :
    Except PyErr (String × String) :=
  match (gitLogRevGrep history rev).getLast? with
  | none =>
    Except.error (PyErr.temporaryMergeError
      ("Revision " ++ rev ++ " not found in git repo."))
  | some sh => Except.ok (rev, sh)

/-- Embeds `_GetSVNRevisionAndSHA1(git_branch, svn_revision, sha1)`.  The
`git_branch` argument is modelled by `history`, the branch's commits oldest
first.  Branches, in source order: an explicit `sha1` is parsed with
`git show --format=%H%n%b` (failing like `git show` when the commit does not
exist); `svn_revision == 'HEAD'` takes the newest commit whose message
contains `git-svn-id:` (an empty log would make `commit.split()[0]` raise
`IndexError`); an absent `svn_revision` falls back to the fetched LKGR value;
finally the numeric revision is located by `git log --grep`. -/
def GetSVNRevisionAndSHA1 (history : List Commit) (svnRevision : Option String)
    (sha1 : Option String) (lkgr : String) : Except PyErr (String × String) :=
  match sha1 with
  | some s =>
    match history.find? (fun c => c.sha1 == s) with
    | none => Except.error (PyErr.mergeError ("git show failed: " ++ s))
    | some c =>
      match ParseSvnRevisionFromGitCommitMessage (s ++ "\n" ++ c.body) with
      | Except.error e => Except.error e
      | Except.ok rev => Except.ok (rev, s)
  | none =>
    match svnRevision with
    | some r =>
      if r == "HEAD" then
        match (history.reverse).find?
            (fun c => listContainsSeq c.fullMessage.data ("git-svn-id:".data)) with
        | none => Except.error PyErr.indexError
        | some c =>
          match ParseSvnRevisionFromGitCommitMessage (c.sha1 ++ "\n" ++ c.body) with
          | Except.error e => Except.error e
          | Except.ok rev => Except.ok (rev, c.sha1)
      else numericRevisionLookup history r
    | none => numericRevisionLookup history lkgr

/-- Constant from the source: marker appended to every generated commit. -/
def AUTOGEN_MESSAGE : String := "This commit was generated by merge_from_chromium.py."

/-- Constant from the source: the tracked upstream branch. -/
def SRC_GIT_BRANCH : String := "refs/remotes/history/upstream-master"

/-- One externally visible side effect of the tool, as issued through
`merge_common.GetCommandStdout` or a file write.  Recording these as a trace
makes "performs no merge operations, creates no commit" a statement about the
trace being empty. -/
inductive GitAction where
  | checkoutBranch (flag branchName track cwd : String)
  | fetch (url : String) (cwd : String)
  | mergeNoCommit (sha1 : String) (cwd : String)
  | commit (message : String) (cwd : String)
  | gitRm (patterns : List String) (cwd : String)
  | gitAdd (pattern : String) (cwd : String)
  | resetHard (cwd : String)
  | runGyp
  | writeFile (path : String) (contents : String)
deriving DecidableEq, Repr

/-- The tool's external environment: the upstream branch history, the values
external commands and collaborators return, and the static tables imported
from `merge_common` / `known_issues` (which live outside this file's source).
Oracles like `revListEmpty` abstract the output of read-only git queries. -/
structure World where
  history : List Commit
  lkgr : String
  repositoryRoot : String
  thirdPartyProjects : List String
  allProjects : List String
  depsVars : DepsVars
  revListEmpty : String → String → Bool
  mergeLeavesConflicts : String → Bool
  knownIncompatible : List (String × List String)
  indexModified : String → Bool
  incompatibleDirsLeft : List String
  noticeContents : String
  gypResult : Except PyErr Unit

/-- Modelled from the spec: `merge_common.CheckNoConflictsAndCommitMerge` is
not under `src/`.  Per the spec, a residual conflict after the non-committing
merge is a fatal (non-recoverable) failure; otherwise the merge commit is
created with the given message. -/
def CheckNoConflictsAndCommitMerge (conflictsRemain : Bool)
    (commitMessage : String) (cwd : String) :
    List GitAction × Except PyErr Unit :=
  if conflictsRemain then
    ([], Except.error (PyErr.mergeError "Merge conflicts remain."))
  else ([GitAction.commit commitMessage cwd], Except.ok ())

/-- The body of the `for path in merge_info` loop of `_MergeProjects`:
checkout the merge branch, fetch the pinned commit unless the project is
locally mirrored (`third_party/WebKit`), and merge plus commit only when
`git rev-list -1 HEAD..sha1` reports new commits. -/
def mergeOneProject (w : World) (branchCreateFlag branchName : String)
    (path url sha1 : String) : List GitAction × Except PyErr Unit :=
  let destDir := osPathJoin w.repositoryRoot path
  let localMirrored := path == "third_party/WebKit"
  let remote := if localMirrored then "history" else "goog"
  let t0 := [GitAction.checkoutBranch branchCreateFlag branchName
    (remote ++ "/master-chromium") destDir]
  let t1 := if localMirrored then [] else [GitAction.fetch url destDir]
  if w.revListEmpty destDir sha1 then (t0 ++ t1, Except.ok ())
  else
    let (t3, r) := CheckNoConflictsAndCommitMerge (w.mergeLeavesConflicts destDir)
      ("Merge " ++ path ++ " from " ++ url ++ " at " ++ sha1 ++ "\n\n" ++
        AUTOGEN_MESSAGE) destDir
    (t0 ++ t1 ++ [GitAction.mergeNoCommit sha1 destDir] ++ t3, r)

/-- Iterates `mergeOneProject` over the extracted merge info, stopping at the
first raised exception. -/
def mergeProjectsLoop (w : World) (branchCreateFlag branchName : String) :
    List (String × String × String) → List GitAction × Except PyErr Unit
  | [] => ([], Except.ok ())
  | (path, url, sha1) :: rest =>
    let (t, r) := mergeOneProject w branchCreateFlag branchName path url sha1
    match r with
    | Except.error e => (t, Except.error e)
    | Except.ok _ =>
      let (t2, r2) := mergeProjectsLoop w branchCreateFlag branchName rest
      (t ++ t2, r2)

/-- The `known_issues.KNOWN_INCOMPATIBLE` exclusion loop of `_MergeProjects`:
`git rm -rf --ignore-unmatch` the listed paths in each affected project and
commit only when the index actually changed. -/
def excludeLoop (w : World) : List (String × List String) → List GitAction
  | [] => []
  | (path, excl) :: rest =>
    let destDir := osPathJoin w.repositoryRoot path
    ([GitAction.gitRm excl destDir] ++
      (if w.indexModified destDir then
        [GitAction.commit "Exclude unwanted directories" destDir]
      else [])) ++ excludeLoop w rest

/-- Embeds `_MergeProjects(git_branch, svn_revision, root_sha1, unattended)`:
extract merge info from the parsed manifest, merge each whitelisted project,
merge the root tree, apply the exclusion list, then fail with
`TemporaryMergeError` if `webview_licenses.GetIncompatibleDirectories()` still
reports leftover directories. -/
def MergeProjects (w : World) (svnRevision rootSha1 : String)
    (unattended : Bool) : List GitAction × Except PyErr Unit :=
  let branchCreateFlag := if unattended then "-B" else "-b"
  let branchName := "merge-from-chromium-" ++ svnRevision
  match GetThirdPartyProjectMergeInfo w.thirdPartyProjects w.depsVars with
  | Except.error e => ([], Except.error e)
  | Except.ok mergeInfo =>
    let (t1, r1) := mergeProjectsLoop w branchCreateFlag branchName mergeInfo
    match r1 with
    | Except.error e => (t1, Except.error e)
    | Except.ok _ =>
      let t2 := [GitAction.checkoutBranch branchCreateFlag branchName
          "history/master-chromium" w.repositoryRoot,
        GitAction.mergeNoCommit rootSha1 w.repositoryRoot]
      let (t3, r3) := CheckNoConflictsAndCommitMerge
        (w.mergeLeavesConflicts w.repositoryRoot)
        ("Merge Chromium  at r" ++ svnRevision ++ " (" ++ rootSha1 ++ ")\n\n" ++
          AUTOGEN_MESSAGE) w.repositoryRoot
      match r3 with
      | Except.error e => (t1 ++ t2 ++ t3, Except.error e)
      | Except.ok _ =>
        let t4 := excludeLoop w w.knownIncompatible
        match w.incompatibleDirsLeft with
        | [] => (t1 ++ t2 ++ t3 ++ t4, Except.ok ())
        | d :: ds =>
          (t1 ++ t2 ++ t3 ++ t4,
            Except.error (PyErr.temporaryMergeError
              ("Incompatibly licensed directories remain: " ++
                String.intercalate "\n" (d :: ds))))

/-- Embeds `_GenerateNoticeFile(svn_revision)`: write the NOTICE file, add it,
and commit only when the index changed. -/
def GenerateNoticeFile (w : World) (svnRevision : String) :
    List GitAction × Except PyErr Unit :=
  ([GitAction.writeFile (osPathJoin w.repositoryRoot "NOTICE") w.noticeContents,
    GitAction.gitAdd "NOTICE" w.repositoryRoot] ++
    (if w.indexModified w.repositoryRoot then
      [GitAction.commit ("Update NOTICE file after merge of Chromium at r" ++
        svnRevision ++ "\n\n" ++ AUTOGEN_MESSAGE) w.repositoryRoot]
    else []), Except.ok ())

/-- Embeds `_GenerateLastChange(svn_revision)`: write the LASTCHANGE stamp,
force-add it, and commit only when the index changed. -/
def GenerateLastChange (w : World) (svnRevision : String) :
    List GitAction × Except PyErr Unit :=
  ([GitAction.writeFile (osPathJoin w.repositoryRoot "build/util/LASTCHANGE")
      ("LASTCHANGE=" ++ svnRevision ++ "\n"),
    GitAction.gitAdd "build/util/LASTCHANGE" w.repositoryRoot] ++
    (if w.indexModified w.repositoryRoot then
      [GitAction.commit ("Update LASTCHANGE file after merge of Chromium at r" ++
        svnRevision ++ "\n\n" ++ AUTOGEN_MESSAGE) w.repositoryRoot]
    else []), Except.ok ())

/-- The patterns removed from every project before regenerating makefiles. -/
def makefileRmPatterns : List String :=
  ["GypAndroid.*.mk", "*.target.*.mk", "*.host.*.mk", "*.tmp"]

/-- Embeds `_GenerateMakefiles(svn_revision, unattended)`.  On a gyp failure
(`except merge_common.MergeError as e`): in attended mode the exception is
re-raised unchanged and no reset happens; in unattended mode every project in
`ALL_PROJECTS` is hard-reset and `TemporaryMergeError('Makefile generation
failed: ' + str(e))` is raised.  On success the generated files are
force-added and committed per project only when the index changed. -/
def GenerateMakefiles (w : World) (svnRevision : String) (unattended : Bool) :
    List GitAction × Except PyErr Unit :=
  let rmTrace := w.allProjects.map
    (fun p => GitAction.gitRm makefileRmPatterns (osPathJoin w.repositoryRoot p))
  match w.gypResult with
  | Except.ok _ =>
    let addTrace := (w.allProjects.map (fun p =>
      let destDir := osPathJoin w.repositoryRoot p
      [GitAction.gitAdd "GypAndroid.*.mk" destDir,
        GitAction.gitAdd "*.target.*.mk" destDir,
        GitAction.gitAdd "*.host.*.mk" destDir,
        GitAction.gitAdd "*.tmp" destDir] ++
      (if w.indexModified destDir then
        [GitAction.commit ("Update makefiles after merge of Chromium at r" ++
          svnRevision ++ "\n\n" ++ AUTOGEN_MESSAGE) destDir]
      else []))).flatten
    (rmTrace ++ [GitAction.runGyp] ++ addTrace, Except.ok ())
  | Except.error e =>
    if e.isMergeError then
      if unattended then
        (rmTrace ++ [GitAction.runGyp] ++
          w.allProjects.map (fun p =>
            GitAction.resetHard (osPathJoin w.repositoryRoot p)),
          Except.error (PyErr.temporaryMergeError
            ("Makefile generation failed: " ++ e.str)))
      else (rmTrace ++ [GitAction.runGyp], Except.error e)
    else (rmTrace ++ [GitAction.runGyp], Except.error e)

/-- Embeds `Snapshot(svn_revision, root_sha1, unattended)`: resolve the target
revision, return `False` immediately (performing nothing) when
`git rev-list -1 HEAD..root_sha1` is empty, else merge, regenerate NOTICE,
LASTCHANGE and makefiles, and return `True`. -/
def Snapshot (w : World) (svnRevision rootSha1 : Option String)
    (unattended : Bool) : List GitAction × Except PyErr Bool :=
  match GetSVNRevisionAndSHA1 w.history svnRevision rootSha1 w.lkgr with
  | Except.error e => ([], Except.error e)
  | Except.ok (rev, sha) =>
    if w.revListEmpty w.repositoryRoot sha then ([], Except.ok false)
    else
      let (t1, r1) := MergeProjects w rev sha unattended
      match r1 with
      | Except.error e => (t1, Except.error e)
      | Except.ok _ =>
        let (t2, _) := GenerateNoticeFile w rev
        let (t3, _) := GenerateLastChange w rev
        let (t4, r4) := GenerateMakefiles w rev unattended
        match r4 with
        | Except.error e => (t1 ++ t2 ++ t3 ++ t4, Except.error e)
        | Except.ok _ => (t1 ++ t2 ++ t3 ++ t4, Except.ok true)

/-- The tail of `main()` in the snapshot branch: `if not Snapshot(...): return
options.no_changes_exit` and `return 0` otherwise. -/
def mainSnapshotExitCode (snapshotResult : Bool) (noChangesExit : Int) : Int :=
  if snapshotResult then 0 else noChangesExit

/-- The optparse default for `--no_changes_exit`. -/
def NO_CHANGES_EXIT_DEFAULT : Int := 0

/-! ## Helper lemmas -/

theorem string_eq_of_data {a b : String} (h : a.data = b.data) : a = b := by
  cases a; cases b; exact congrArg String.mk h

theorem reMatchUrlSha1_empty : reMatchUrlSha1 "" = none := rfl

theorem reMatchUrlSha1_ne_empty {v : String} {p : String × String}
    (h : reMatchUrlSha1 v = some p) : v ≠ "" := by
  intro hv
  rw [hv, reMatchUrlSha1_empty] at h
  exact Option.noConfusion h

theorem lookupFallback_cons_hit {d : List (String × String)}
    {rest : List (List (String × String))} {key v : String}
    (h : alGet? d key = some v) (hv : v ≠ "") :
    lookupFallback (d :: rest) key = some v := by
  simp [lookupFallback, h, hv]

theorem lookupFallback_cons_skip {d : List (String × String)}
    {rest : List (List (String × String))} {key : String}
    (h : alGet? d key = none ∨ alGet? d key = some "") :
    lookupFallback (d :: rest) key = lookupFallback rest key := by
  cases h with
  | inl h => simp [lookupFallback, h]
  | inr h => simp [lookupFallback, h]

theorem lookupFallback_none_of_falsy :
    ∀ (tiers : List (List (String × String))) (key : String),
      (∀ t ∈ tiers, ∀ v, alGet? t key = some v → v = "") →
      lookupFallback tiers key = none
  | [], _, _ => rfl
  | d :: rest, key, h => by
    have hrest : lookupFallback rest key = none :=
      lookupFallback_none_of_falsy rest key
        (fun t ht v hv => h t (List.mem_cons_of_mem d ht) v hv)
    cases hv : alGet? d key with
    | none => simpa [lookupFallback, hv] using hrest
    | some v =>
      have hv0 : v = "" := h d (List.mem_cons_self d rest) v hv
      subst hv0
      simpa [lookupFallback, hv] using hrest

theorem osPathJoin_src (p : String) (h : strStartsWith p "/" = false) :
    osPathJoin "src" p = "src/" ++ p := by
  have h2 : ("src" == "" || strEndsWith "src" "/") = false := by decide
  have h3 : ("src" : String).data ++ ("/" : String).data = ("src/" : String).data := rfl
  simp only [osPathJoin, h, h2, Bool.false_eq_true, if_false]
  apply string_eq_of_data
  simp [String.data_append]

theorem extractLoop_single_ok {tiers : List (List (String × String))}
    {path v url sha1 : String}
    (hl : lookupFallback tiers (osPathJoin "src" path) = some v)
    (hm : reMatchUrlSha1 v = some (url, sha1)) :
    extractLoop tiers [path] = Except.ok [(path, url, sha1)] := by
  simp [extractLoop, hl, hm]

theorem splitAtFirstAt_append :
    ∀ {l a b : List Char}, splitAtFirstAt l = some (a, b) → l = a ++ '@' :: b := by
  intro l
  induction l with
  | nil => intro a b h; exact Option.noConfusion h
  | cons c cs ih =>
    intro a b h
    by_cases hc : c = '@'
    · subst hc
      simp [splitAtFirstAt] at h
      obtain ⟨h1, h2⟩ := h
      subst h1; subst h2; rfl
    · rw [splitAtFirstAt, if_neg (by simp [hc])] at h
      cases hs : splitAtFirstAt cs with
      | none => rw [hs] at h; exact Option.noConfusion h
      | some p =>
        rw [hs] at h
        cases p with
        | mk a' b' =>
          simp at h
          obtain ⟨h1, h2⟩ := h
          subst h1; subst h2
          simpa using congrArg (fun t => c :: t) (ih hs)

theorem splitAtFirstAt_isSome_of_mem :
    ∀ {l : List Char}, '@' ∈ l → (splitAtFirstAt l).isSome = true := by
  intro l
  induction l with
  | nil => intro h; exact absurd h (List.not_mem_nil _)
  | cons c cs ih =>
    intro h
    by_cases hc : c = '@'
    · subst hc; simp [splitAtFirstAt]
    · have hmem : '@' ∈ cs := by
        cases List.mem_cons.mp h with
        | inl h0 => exact absurd h0.symm hc
        | inr h0 => exact h0
      rw [splitAtFirstAt, if_neg (by simp [hc])]
      cases hs : splitAtFirstAt cs with
      | none => rw [hs] at ih; exact absurd (ih hmem) (by simp)
      | some p => cases p with | mk a b => simp

theorem splitAtFirstAt_none_of_not_mem :
    ∀ {l : List Char}, (∀ c ∈ l, c ≠ '@') → splitAtFirstAt l = none := by
  intro l
  induction l with
  | nil => intro _; rfl
  | cons c cs ih =>
    intro h
    have hc : c ≠ '@' := h c (List.mem_cons_self c cs)
    rw [splitAtFirstAt, if_neg (by simp [hc]),
      ih (fun x hx => h x (List.mem_cons_of_mem c hx))]

theorem takeLine_of_no_newline :
    ∀ {l : List Char}, (∀ c ∈ l, c ≠ '\n') → takeLine l = l := by
  intro l
  induction l with
  | nil => intro _; rfl
  | cons c cs ih =>
    intro h
    have hc : c ≠ '\n' := h c (List.mem_cons_self c cs)
    rw [takeLine, List.takeWhile_cons_of_pos (by simp [hc])]
    have := ih (fun x hx => h x (List.mem_cons_of_mem c hx))
    rw [takeLine] at this
    rw [this]

theorem mem_of_mem_takeLine {c : Char} :
    ∀ {l : List Char}, c ∈ takeLine l → c ∈ l := by
  intro l
  induction l with
  | nil => intro h; exact absurd h (List.not_mem_nil _)
  | cons x xs ih =>
    intro h
    rw [takeLine] at h
    by_cases hx : x = '\n'
    · rw [List.takeWhile_cons_of_neg (by simp [hx])] at h
      exact absurd h (List.not_mem_nil _)
    · rw [List.takeWhile_cons_of_pos (by simp [hx])] at h
      cases List.mem_cons.mp h with
      | inl h0 => exact h0 ▸ List.mem_cons_self x xs
      | inr h0 => exact List.mem_cons_of_mem x (ih h0)

theorem reMatchUrlSha1_none_of_no_at {v : String}
    (h : ∀ c ∈ v.data, c ≠ '@') : reMatchUrlSha1 v = none := by
  rw [reMatchUrlSha1, splitAtFirstAt_none_of_not_mem
    (fun c hc => h c (mem_of_mem_takeLine hc))]

theorem extractLoop_missing {tiers : List (List (String × String))}
    {path : String} :
    ∀ (pre post : List String),
      (∀ q ∈ pre, ∃ v url sha1,
        lookupFallback tiers (osPathJoin "src" q) = some v ∧
        reMatchUrlSha1 v = some (url, sha1)) →
      lookupFallback tiers (osPathJoin "src" path) = none →
      extractLoop tiers (pre ++ path :: post) =
        Except.error (PyErr.temporaryMergeError (missingEntryMessage path))
  | [], post, _, hmiss => by simp [extractLoop, hmiss]
  | q :: pre, post, hpre, hmiss => by
    obtain ⟨v, url, sha1, hl, hm⟩ := hpre q (List.mem_cons_self q pre)
    have ih := extractLoop_missing pre post
      (fun x hx => hpre x (List.mem_cons_of_mem q hx)) hmiss
    simp [extractLoop, hl, hm, ih]

theorem filter_head_of_first {α : Type} (p : α → Bool) :
    ∀ (l : List α) (i : Nat) (hi : i < l.length),
      p (l.get ⟨i, hi⟩) = true →
      (∀ k (hk : k < i), p (l.get ⟨k, Nat.lt_trans hk hi⟩) = false) →
      (l.filter p).head? = some (l.get ⟨i, hi⟩)
  | [], i, hi, _, _ => absurd hi (by simp)
  | x :: xs, 0, _, hp, _ => by
    simp only [List.get] at hp
    simp [List.filter_cons, hp]
  | x :: xs, i + 1, hi, hp, hbefore => by
    have hx : p x = false := by
      have h0 := hbefore 0 (Nat.succ_pos i)
      simpa [List.get] using h0
    have ih := filter_head_of_first p xs i (Nat.lt_of_succ_lt_succ hi)
      (by simpa [List.get] using hp)
      (fun k hk => by
        have hk1 := hbefore (k + 1) (Nat.succ_lt_succ hk)
        simpa [List.get] using hk1)
    simpa [List.filter_cons, hx, List.get] using ih

/-! ## Claim theorems -/

/-- Claim C1: for every manifest whose evaluated scope contains well-formed
`deps`/`deps_os` tables (with `unix` and `android` entries present in
`deps_os`) and every requested project path present in exactly one fallback
tier (holding a well-formed `url@sha1` value), merge-info extraction returns
the url/sha1 pair split from that tier's value, consulting the tiers in the
fixed order `deps`, `deps_os['unix']`, `deps_os['android']`; and (second
conjunct) a value is never taken from a lower-priority tier when a
higher-priority tier contains the key with a non-empty value. -/
theorem spec_c1_fallback_order :
    (∀ (dv : DepsVars) (unix android : List (String × String))
      (path v url sha1 : String) (i : Fin 3),
      alGet? dv.deps_os "unix" = some unix →
      alGet? dv.deps_os "android" = some android →
      strStartsWith path "/" = false →
      alGet? ([dv.deps, unix, android].get i) ("src/" ++ path) = some v →
      (∀ j : Fin 3, j ≠ i →
        alGet? ([dv.deps, unix, android].get j) ("src/" ++ path) = none) →
      reMatchUrlSha1 v = some (url, sha1) →
      GetThirdPartyProjectMergeInfo [path] dv = Except.ok [(path, url, sha1)]) ∧
    (∀ (hi : List (String × String)) (lo : List (List (String × String)))
      (key v : String),
      alGet? hi key = some v → v ≠ "" →
      lookupFallback (hi :: lo) key = some v) := by
  constructor
  · intro dv unix android path v url sha1 i hunix handroid hpath hv hothers hm
    have hne : v ≠ "" := reMatchUrlSha1_ne_empty hm
    have hkey : osPathJoin "src" path = "src/" ++ path := osPathJoin_src path hpath
    have hlook : lookupFallback [dv.deps, unix, android] ("src/" ++ path) = some v := by
      fin_cases i
      · exact lookupFallback_cons_hit hv hne
      · rw [lookupFallback_cons_skip (Or.inl
          (show alGet? dv.deps ("src/" ++ path) = none from hothers 0 (by decide)))]
        exact lookupFallback_cons_hit hv hne
      · rw [lookupFallback_cons_skip (Or.inl
          (show alGet? dv.deps ("src/" ++ path) = none from hothers 0 (by decide))),
          lookupFallback_cons_skip (Or.inl
          (show alGet? unix ("src/" ++ path) = none from hothers 1 (by decide)))]
        exact lookupFallback_cons_hit hv hne
    have hlook' : lookupFallback [dv.deps, unix, android]
        (osPathJoin "src" path) = some v := by rw [hkey]; exact hlook
    simp [GetThirdPartyProjectMergeInfo, dictGetItem, hunix, handroid,
      extractLoop_single_ok hlook' hm]
  · intro hi lo key v h hv
    exact lookupFallback_cons_hit h hv

/-- Claim C1 witness: a concrete manifest whose only entry for
`src/third_party/skia` sits in `deps_os['unix']`. -/
theorem spec_c1_fallback_order_witness :
    GetThirdPartyProjectMergeInfo ["third_party/skia"]
      { deps := [],
        deps_os := [("unix", [("src/third_party/skia", "http://git.example.org/skia.git@abcd")]),
                    ("android", [])] } =
      Except.ok [("third_party/skia", "http://git.example.org/skia.git", "abcd")] :=
  spec_c1_fallback_order.1
    { deps := [],
      deps_os := [("unix", [("src/third_party/skia", "http://git.example.org/skia.git@abcd")]),
                  ("android", [])] }
    [("src/third_party/skia", "http://git.example.org/skia.git@abcd")] []
    "third_party/skia" "http://git.example.org/skia.git@abcd"
    "http://git.example.org/skia.git" "abcd" 1
    (by decide) (by decide) (by decide) (by decide)
    (by intro j hj; fin_cases j
        · decide
        · simp at hj
        · decide)
    (by decide)

/-- Claim C3: for every manifest (with well-formed `deps_os` entries) and
every requested project path with no truthy entry in any fallback tier,
merge-info extraction (reaching that path after any prefix of resolvable
paths) raises `TemporaryMergeError` — the recoverable kind — whose message
contains the missing path, and returns no partial mapping (the whole result
is the error). -/
theorem spec_c3_missing_entry :
    ∀ (dv : DepsVars) (unix android : List (String × String)) (path : String)
      (pre post : List String),
      alGet? dv.deps_os "unix" = some unix →
      alGet? dv.deps_os "android" = some android →
      (∀ q ∈ pre, ∃ v url sha1,
        lookupFallback [dv.deps, unix, android] (osPathJoin "src" q) = some v ∧
        reMatchUrlSha1 v = some (url, sha1)) →
      lookupFallback [dv.deps, unix, android] (osPathJoin "src" path) = none →
      (GetThirdPartyProjectMergeInfo (pre ++ path :: post) dv =
        Except.error (PyErr.temporaryMergeError (missingEntryMessage path)) ∧
       ∃ a b, (missingEntryMessage path).data = a ++ path.data ++ b) := by
  intro dv unix android path pre post hunix handroid hpre hmiss
  constructor
  · simp [GetThirdPartyProjectMergeInfo, dictGetItem, hunix, handroid,
      extractLoop_missing pre post hpre hmiss]
  · refine ⟨("Could not find .DEPS.git entry for project " : String).data,
      (". This probably means that the project list in merge_from_chromium.py " ++
        "needs to be updated." : String).data, ?_⟩
    simp [missingEntryMessage, String.data_append]

/-- Claim C3 witness: a manifest with empty (but present) tiers and the
missing path `third_party/foo`. -/
theorem spec_c3_missing_entry_witness :
    GetThirdPartyProjectMergeInfo ["third_party/foo"]
      { deps := [], deps_os := [("unix", []), ("android", [])] } =
      Except.error (PyErr.temporaryMergeError (missingEntryMessage "third_party/foo")) ∧
    ∃ a b, (missingEntryMessage "third_party/foo").data =
      a ++ ("third_party/foo" : String).data ++ b :=
  spec_c3_missing_entry
    { deps := [], deps_os := [("unix", []), ("android", [])] } [] []
    "third_party/foo" [] [] (by decide) (by decide)
    (by intro q hq; exact absurd hq (List.not_mem_nil q)) (by decide)

/-- Claim C4: `_VarImpl.Lookup` returns the caller-supplied override when the
name is in the override table, else the manifest's own `vars` entry when
defined there, else raises the variable-undefined `Exception`; in particular,
with no override and `vars = {"X": "1"}`, looking up `X` yields `"1"` and
looking up `Y` fails. -/
theorem spec_c4_var_lookup :
    (∀ (cv : List (String × String)) (sv : Option (List (String × String)))
      (n v : String),
      alGet? cv n = some v → VarImpl.Lookup cv sv n = Except.ok v) ∧
    (∀ (cv : List (String × String)) (sv : Option (List (String × String)))
      (n v : String),
      alGet? cv n = none → alGet? (sv.getD []) n = some v →
      VarImpl.Lookup cv sv n = Except.ok v) ∧
    (∀ (cv : List (String × String)) (sv : Option (List (String × String)))
      (n : String),
      alGet? cv n = none → alGet? (sv.getD []) n = none →
      VarImpl.Lookup cv sv n =
        Except.error (PyErr.exception ("Var is not defined: " ++ n))) ∧
    VarImpl.Lookup [] (some [("X", "1")]) "X" = Except.ok "1" ∧
    (∃ e, VarImpl.Lookup [] (some [("X", "1")]) "Y" = Except.error e) := by
  refine ⟨?_, ?_, ?_, ?_, ?_⟩
  · intro cv sv n v h; simp [VarImpl.Lookup, h]
  · intro cv sv n v h1 h2; simp [VarImpl.Lookup, h1, h2]
  · intro cv sv n h1 h2; simp [VarImpl.Lookup, h1, h2]
  · rfl
  · exact ⟨PyErr.exception ("Var is not defined: " ++ "Y"), rfl⟩

/-- Claim C4 witness: the three branches at concrete inputs. -/
theorem spec_c4_var_lookup_witness :
    VarImpl.Lookup [("A", "0")] none "A" = Except.ok "0" ∧
    VarImpl.Lookup [] (some [("X", "1")]) "X" = Except.ok "1" ∧
    VarImpl.Lookup [] (some [("X", "1")]) "Y" =
      Except.error (PyErr.exception ("Var is not defined: " ++ "Y")) :=
  ⟨spec_c4_var_lookup.1 [("A", "0")] none "A" "0" (by decide),
   spec_c4_var_lookup.2.1 [] (some [("X", "1")]) "X" "1" (by decide) (by decide),
   spec_c4_var_lookup.2.2.1 [] (some [("X", "1")]) "Y" (by decide) (by decide)⟩

/-- Claim C5 (counterexample): the round-trip fails for a combined dependency
string that contains an `'@'` but also a newline: `'.'` in the pattern
`(.*?)@(.*)` does not match a newline, so `re.match` keeps only the first
line and reassembly loses the remainder. -/
theorem spec_c5_roundtrip_counterexample :
    reMatchUrlSha1 "a@b\nc" = some ("a", "b") ∧
    ("a" ++ "@" ++ "b" : String) ≠ "a@b\nc" := by
  constructor
  · decide
  · decide

/-- Claim C5 (amended): for every combined dependency string containing at
least one `'@'` character and no newline character, splitting by merge-info
extraction and reassembling via `url ++ "@" ++ sha1` yields exactly the
original string. -/
theorem spec_c5_roundtrip_amended :
    ∀ (s : String), '@' ∈ s.data → (∀ c ∈ s.data, c ≠ '\n') →
      ∃ url sha1, reMatchUrlSha1 s = some (url, sha1) ∧
        url ++ "@" ++ sha1 = s := by
  intro s hat hnl
  have htake : takeLine s.data = s.data := takeLine_of_no_newline hnl
  have hsome : (splitAtFirstAt s.data).isSome = true :=
    splitAtFirstAt_isSome_of_mem hat
  cases hs : splitAtFirstAt s.data with
  | none => rw [hs] at hsome; exact absurd hsome (by simp)
  | some p =>
    cases p with
    | mk a b =>
      refine ⟨String.mk a, String.mk b, ?_, ?_⟩
      · rw [reMatchUrlSha1, htake, hs]
      · apply string_eq_of_data
        rw [String.data_append, String.data_append, splitAtFirstAt_append hs]
        simp

/-- Claim C5 witness (for the amended claim): a realistic `url@sha1` value. -/
theorem spec_c5_roundtrip_amended_witness :
    ∃ url sha1,
      reMatchUrlSha1 "http://git.example.org/repo.git@0123abcd" =
        some (url, sha1) ∧
      url ++ "@" ++ sha1 = "http://git.example.org/repo.git@0123abcd" :=
  spec_c5_roundtrip_amended "http://git.example.org/repo.git@0123abcd"
    (by decide) (by decide)

/-- Claim C8: when the evaluated scope leaves `deps_os` without a `unix` key
(including the default empty `deps_os`), or with `unix` but without
`android`, merge-info extraction fails with `KeyError` while building the
fallback-tier list — uniformly in the requested path list, hence before
examining any path — and that error is not the recoverable
`TemporaryMergeError` kind. -/
theorem spec_c8_missing_os_key :
    ∀ (dv : DepsVars) (projects : List String),
      (alGet? dv.deps_os "unix" = none →
        GetThirdPartyProjectMergeInfo projects dv =
          Except.error (PyErr.keyError "unix")) ∧
      (∀ unix, alGet? dv.deps_os "unix" = some unix →
        alGet? dv.deps_os "android" = none →
        GetThirdPartyProjectMergeInfo projects dv =
          Except.error (PyErr.keyError "android")) ∧
      (∀ k msg, PyErr.keyError k ≠ PyErr.temporaryMergeError msg) := by
  intro dv projects
  refine ⟨?_, ?_, ?_⟩
  · intro h; simp [GetThirdPartyProjectMergeInfo, dictGetItem, h]
  · intro unix h1 h2
    simp [GetThirdPartyProjectMergeInfo, dictGetItem, h1, h2]
  · intro k msg h; exact PyErr.noConfusion h

/-- Claim C8 witness: a manifest with an entry for the requested path but the
default empty `deps_os`. -/
theorem spec_c8_missing_os_key_witness :
    GetThirdPartyProjectMergeInfo ["third_party/skia"]
      { deps := [("src/third_party/skia", "u@s")], deps_os := [] } =
      Except.error (PyErr.keyError "unix") :=
  (spec_c8_missing_os_key
    { deps := [("src/third_party/skia", "u@s")], deps_os := [] }
    ["third_party/skia"]).1 (by decide)

/-- Claim C9: when the fallback lookup yields a dependency value containing
no `'@'` character, the url/sha1 split fails with a plain `AttributeError`
(the regex produces no match and the code dereferences `None`), not with an
`(url, sha1)` result and not with the classified recoverable kind. -/
theorem spec_c9_no_at_sign :
    ∀ (dv : DepsVars) (unix android : List (String × String)) (path v : String),
      alGet? dv.deps_os "unix" = some unix →
      alGet? dv.deps_os "android" = some android →
      lookupFallback [dv.deps, unix, android] (osPathJoin "src" path) = some v →
      (∀ c ∈ v.data, c ≠ '@') →
      (GetThirdPartyProjectMergeInfo [path] dv =
        Except.error PyErr.attributeError ∧
       (∀ msg, PyErr.attributeError ≠ PyErr.temporaryMergeError msg) ∧
       (∀ l, GetThirdPartyProjectMergeInfo [path] dv ≠ Except.ok l)) := by
  intro dv unix android path v hunix handroid hl hno
  have hm : reMatchUrlSha1 v = none := reMatchUrlSha1_none_of_no_at hno
  have hmain : GetThirdPartyProjectMergeInfo [path] dv =
      Except.error PyErr.attributeError := by
    simp [GetThirdPartyProjectMergeInfo, dictGetItem, hunix, handroid,
      extractLoop, hl, hm]
  refine ⟨hmain, fun msg h => PyErr.noConfusion h, fun l h => ?_⟩
  rw [hmain] at h
  exact Except.noConfusion h

/-- Claim C9 witness: the value `"nohash"` contains no `'@'`. -/
theorem spec_c9_no_at_sign_witness :
    GetThirdPartyProjectMergeInfo ["third_party/foo"]
      { deps := [("src/third_party/foo", "nohash")],
        deps_os := [("unix", []), ("android", [])] } =
      Except.error PyErr.attributeError :=
  (spec_c9_no_at_sign
    { deps := [("src/third_party/foo", "nohash")],
      deps_os := [("unix", []), ("android", [])] }
    [] [] "third_party/foo" "nohash"
    (by decide) (by decide) (by decide) (by decide)).1

/-- Claim C10: an entry whose value is falsy (the empty string) is treated as
absent — the lookup falls through to the next tier (first conjunct) — and
when no tier holds a truthy value for `src/ + path` the extraction fails
with the manifest-entry-missing `TemporaryMergeError`, because presence is
tested by truthiness of the looked-up value, not key membership (second
conjunct). -/
theorem spec_c10_falsy_fallthrough :
    (∀ (d : List (String × String)) (rest : List (List (String × String)))
      (key : String),
      alGet? d key = some "" →
      lookupFallback (d :: rest) key = lookupFallback rest key) ∧
    (∀ (dv : DepsVars) (unix android : List (String × String)) (path : String),
      alGet? dv.deps_os "unix" = some unix →
      alGet? dv.deps_os "android" = some android →
      (∀ t ∈ [dv.deps, unix, android], ∀ v,
        alGet? t ("src/" ++ path) = some v → v = "") →
      strStartsWith path "/" = false →
      GetThirdPartyProjectMergeInfo [path] dv =
        Except.error (PyErr.temporaryMergeError (missingEntryMessage path))) := by
  constructor
  · intro d rest key h
    exact lookupFallback_cons_skip (Or.inr h)
  · intro dv unix android path hunix handroid hfalsy hpath
    have hnone : lookupFallback [dv.deps, unix, android] ("src/" ++ path) = none :=
      lookupFallback_none_of_falsy _ _ hfalsy
    have hnone' : lookupFallback [dv.deps, unix, android]
        (osPathJoin "src" path) = none := by
      rw [osPathJoin_src path hpath]; exact hnone
    simp [GetThirdPartyProjectMergeInfo, dictGetItem, hunix, handroid,
      extractLoop, hnone']

/-- Claim C10 witness: `deps` holds an empty-string entry for the path,
`deps_os['unix']` holds the real value; the lookup falls through and finds
it, and with all tiers falsy the extraction raises the missing-entry
error. -/
theorem spec_c10_falsy_fallthrough_witness :
    lookupFallback [[("src/p", "")], [("src/p", "u@s")]] "src/p" =
      lookupFallback [[("src/p", "u@s")]] "src/p" ∧
    GetThirdPartyProjectMergeInfo ["p"]
      { deps := [("src/p", "")],
        deps_os := [("unix", [("src/p", "")]), ("android", [])] } =
      Except.error (PyErr.temporaryMergeError (missingEntryMessage "p")) :=
  ⟨spec_c10_falsy_fallthrough.1 [("src/p", "")] [[("src/p", "u@s")]] "src/p"
    (by decide),
   spec_c10_falsy_fallthrough.2
    { deps := [("src/p", "")],
      deps_os := [("unix", [("src/p", "")]), ("android", [])] }
    [("src/p", "")] [] "p" (by decide) (by decide)
    (by intro t ht v hv
        fin_cases ht
        · simp [alGet?] at hv
          exact hv.symm
        · simp [alGet?] at hv
          exact hv.symm
        · simp [alGet?] at hv)
    (by decide)⟩

/-- Claim C2: when several commits on the tracked branch carry an identical
numeric-revision trailer, resolving that numeric revision returns the
content-hash of the oldest matching commit: if the commit at position `i`
(oldest-first indexing) matches the trailer grep and no earlier commit does,
the result is `(rev, sha1 of commit i)` — `output.split()[-1]` takes the last
hash `git log` printed, i.e. the oldest. -/
theorem spec_c2_oldest_match :
    ∀ (history : List Commit) (rev lkgr : String) (i : Nat)
      (hi : i < history.length),
      rev ≠ "HEAD" →
      commitMatchesRevGrep (history.get ⟨i, hi⟩).fullMessage rev = true →
      (∀ k (hk : k < i),
        commitMatchesRevGrep (history.get ⟨k, Nat.lt_trans hk hi⟩).fullMessage
          rev = false) →
      GetSVNRevisionAndSHA1 history (some rev) none lkgr =
        Except.ok (rev, (history.get ⟨i, hi⟩).sha1) := by
  intro history rev lkgr i hi hne hmatch hbefore
  have hbeq : (rev == "HEAD") = false := by simp [hne]
  have hhead : (history.filter
      (fun c => commitMatchesRevGrep c.fullMessage rev)).head? =
      some (history.get ⟨i, hi⟩) :=
    filter_head_of_first _ history i hi hmatch hbefore
  have hlast : (gitLogRevGrep history rev).getLast? =
      some (history.get ⟨i, hi⟩).sha1 := by
    rw [gitLogRevGrep, List.filter_reverse, List.map_reverse,
      List.getLast?_reverse, List.head?_map, hhead]
    rfl
  simp [GetSVNRevisionAndSHA1, numericRevisionLookup, hbeq, hlast]

/-- Claim C2 witness: a revert/reapply pair carrying the same trailer for
revision 100; the oldest commit (hash `aaa`) wins. -/
theorem spec_c2_oldest_match_witness :
    GetSVNRevisionAndSHA1
      [{ sha1 := "aaa", subject := "Change X",
         body := "git-svn-id: http://src.example.org/svn/trunk/src@100 uuid" },
       { sha1 := "bbb", subject := "Reapply change X",
         body := "git-svn-id: http://src.example.org/svn/trunk/src@100 uuid" }]
      (some "100") none "0" = Except.ok ("100", "aaa") :=
  spec_c2_oldest_match
    [{ sha1 := "aaa", subject := "Change X",
       body := "git-svn-id: http://src.example.org/svn/trunk/src@100 uuid" },
     { sha1 := "bbb", subject := "Reapply change X",
       body := "git-svn-id: http://src.example.org/svn/trunk/src@100 uuid" }]
    "100" "0" 0 (by decide) (by decide) (by decide)
    (fun k hk => absurd hk (Nat.not_lt_zero k))

/-- Claim C6: when the resolution succeeds and `git rev-list -1 HEAD..sha`
is empty (no new commits anywhere), `Snapshot` performs no git actions at all
(no merge, no commit) and returns `False`, which `main` maps to the
configured `--no_changes_exit` code, whose optparse default is 0. -/
theorem spec_c6_no_new_commits :
    ∀ (w : World) (svnRevision rootSha1 : Option String) (unattended : Bool)
      (rev sha : String) (code : Int),
      GetSVNRevisionAndSHA1 w.history svnRevision rootSha1 w.lkgr =
        Except.ok (rev, sha) →
      (∀ cwd s, w.revListEmpty cwd s = true) →
      (Snapshot w svnRevision rootSha1 unattended = ([], Except.ok false) ∧
       mainSnapshotExitCode false code = code ∧
       NO_CHANGES_EXIT_DEFAULT = 0) := by
  intro w svnRevision rootSha1 unattended rev sha code hres hall
  refine ⟨?_, rfl, rfl⟩
  simp [Snapshot, hres, hall w.repositoryRoot sha]

/-- The single upstream commit of `noChangeWorld`. -/
def noChangeCommit : Commit :=
  { sha1 := "abcd", subject := "Initial",
    body := "git-svn-id: http://src.example.org/svn/trunk/src@100 uuid" }

/-- A concrete environment in which the pinned commit is already merged. -/
def noChangeWorld : World :=
  { history := [noChangeCommit],
    lkgr := "100",
    repositoryRoot := "repo",
    thirdPartyProjects := [],
    allProjects := [],
    depsVars := { deps := [], deps_os := [("unix", []), ("android", [])] },
    revListEmpty := fun _ _ => true,
    mergeLeavesConflicts := fun _ => false,
    knownIncompatible := [],
    indexModified := fun _ => false,
    incompatibleDirsLeft := [],
    noticeContents := "",
    gypResult := Except.ok () }

/-- Claim C6 witness: in `noChangeWorld`, `Snapshot` at revision 100 does
nothing and returns `False`; the exit code is the configured one. -/
theorem spec_c6_no_new_commits_witness :
    Snapshot noChangeWorld (some "100") none false = ([], Except.ok false) ∧
    mainSnapshotExitCode false 0 = 0 ∧ NO_CHANGES_EXIT_DEFAULT = 0 :=
  spec_c6_no_new_commits noChangeWorld (some "100") none false "100" "abcd" 0
    rfl (fun _ _ => rfl)

/-- Claim C7: on build-file-generator (gyp) failure, in unattended mode every
tracked project is hard-reset and a recoverable `TemporaryMergeError` is
raised; in attended mode the original exception is propagated unchanged and
no reset is performed. -/
theorem spec_c7_generator_failure :
    ∀ (w : World) (svnRevision : String) (e : PyErr),
      w.gypResult = Except.error e → e.isMergeError = true →
      (((GenerateMakefiles w svnRevision true).2 =
          Except.error (PyErr.temporaryMergeError
            ("Makefile generation failed: " ++ e.str)) ∧
        ∀ p ∈ w.allProjects,
          GitAction.resetHard (osPathJoin w.repositoryRoot p) ∈
            (GenerateMakefiles w svnRevision true).1) ∧
       ((GenerateMakefiles w svnRevision false).2 = Except.error e ∧
        ∀ d, GitAction.resetHard d ∉ (GenerateMakefiles w svnRevision false).1)) := by
  intro w svnRevision e hgyp hme
  have hun : GenerateMakefiles w svnRevision true =
      (w.allProjects.map (fun p =>
          GitAction.gitRm makefileRmPatterns (osPathJoin w.repositoryRoot p)) ++
        [GitAction.runGyp] ++
        w.allProjects.map (fun p =>
          GitAction.resetHard (osPathJoin w.repositoryRoot p)),
       Except.error (PyErr.temporaryMergeError
         ("Makefile generation failed: " ++ e.str))) := by
    simp [GenerateMakefiles, hgyp, hme]
  have hat : GenerateMakefiles w svnRevision false =
      (w.allProjects.map (fun p =>
          GitAction.gitRm makefileRmPatterns (osPathJoin w.repositoryRoot p)) ++
        [GitAction.runGyp], Except.error e) := by
    simp [GenerateMakefiles, hgyp, hme]
  refine ⟨⟨?_, ?_⟩, ?_, ?_⟩
  · rw [hun]
  · intro p hp
    rw [hun]
    simp only [List.mem_append, List.mem_map]
    exact Or.inr ⟨p, hp, rfl⟩
  · rw [hat]
  · intro d hd
    rw [hat] at hd
    simp [List.mem_append, List.mem_map] at hd

/-- A concrete environment in which gyp fails. -/
def gypFailWorld : World :=
  { history := [],
    lkgr := "100",
    repositoryRoot := "repo",
    thirdPartyProjects := [],
    allProjects := ["external/chromium"],
    depsVars := { deps := [], deps_os := [("unix", []), ("android", [])] },
    revListEmpty := fun _ _ => true,
    mergeLeavesConflicts := fun _ => false,
    knownIncompatible := [],
    indexModified := fun _ => false,
    incompatibleDirsLeft := [],
    noticeContents := "",
    gypResult := Except.error (PyErr.mergeError "gyp failed") }

/-- Claim C7 witness: the two modes at a concrete failing environment. -/
theorem spec_c7_generator_failure_witness :
    (((GenerateMakefiles gypFailWorld "100" true).2 =
        Except.error (PyErr.temporaryMergeError
          ("Makefile generation failed: " ++ (PyErr.mergeError "gyp failed").str)) ∧
      ∀ p ∈ gypFailWorld.allProjects,
        GitAction.resetHard (osPathJoin gypFailWorld.repositoryRoot p) ∈
          (GenerateMakefiles gypFailWorld "100" true).1) ∧
     ((GenerateMakefiles gypFailWorld "100" false).2 =
        Except.error (PyErr.mergeError "gyp failed") ∧
      ∀ d, GitAction.resetHard d ∉ (GenerateMakefiles gypFailWorld "100" false).1)) :=
  spec_c7_generator_failure gypFailWorld "100" (PyErr.mergeError "gyp failed")
    rfl rfl
